import Mathlib

/-!
Shallow embedding of the `azure-collector` service bootstrap layer
(`service/service.go`): configuration validation, connection-strategy
resolution, collector-set assembly (`New`) and the one-shot boot
lifecycle (`Service.Boot`).

External collaborators (micrologger, flag tree, viper, k8srestconfig,
k8sclient, the collector constructors and the version service) are
black boxes from the point of view of this file's claims: their
constructors are modelled as functions supplied by an `Env` record,
and the handles they return are opaque wrappers.  Every call `New`
makes into a collaborator is recorded in an `ExtCall` trace, in the
order the Go code performs the calls, so that "happens before" and
"no network I/O" properties become statements about the trace.
-/

set_option autoImplicit false

namespace AzureCollector

/-- Opaque handle for the structured logger (`micrologger.Logger`). -/
structure Logger where
  id : Nat
deriving DecidableEq

/-- Opaque handle for the CLI flag definition tree (`flag.Flag`).  Its leaves
are only key names fed to Viper, so the values read through it live in
`ViperState`. -/
structure Flag where
  id : Nat
deriving DecidableEq

/-- The configuration values `New` reads through `config.Viper` at the keys
named by `config.Flag`: the three Kubernetes connection parameters, the
kubeconfig literal and TLS file paths used by `buildK8sRestConfig`, and the
provider parameters used by the operator collector set. -/
structure ViperState where
  kubernetesAddress : String
  kubernetesInCluster : Bool
  kubernetesKubeConfigPath : String
  kubernetesKubeConfig : String
  tlsCAFile : String
  tlsCrtFile : String
  tlsKeyFile : String
  controlPlaneResourceGroup : String
  location : String
  azureSPTenantID : String
deriving DecidableEq

/-- `service.Config`: the logger/flag/viper handles (nil-able pointers in Go,
hence `Option`) and the five identity metadata strings. -/
structure Config where
  logger : Option Logger
  flag : Option Flag
  viper : Option ViperState
  description : String
  gitCommit : String
  projectName : String
  source : String
  version : String
deriving DecidableEq

/-- Error kinds: `invalidConfig` models the package's `invalidConfigError`
(matched by `IsInvalidConfig`); `collaborator` stands for any error produced
by an external constructor.  `microerror.Maskf`/`Mask` wrap an error without
changing which kind it matches, so masking is the identity here. -/
inductive ErrKind where
  | invalidConfig
  | collaborator
deriving DecidableEq

/-- An error value: its matchable kind plus the formatted message. -/
structure Err where
  kind : ErrKind
  msg : String
deriving DecidableEq

/-- Opaque handle for `*rest.Config` as produced by `k8srestconfig.New`. -/
structure RestConfig where
  id : Nat
deriving DecidableEq

/-- Opaque handle for `*k8sclient.Clients`. -/
structure Clients where
  id : Nat
deriving DecidableEq

/-- Opaque handle for `*collector.Set` (the operator collector set). -/
structure CollectorSet where
  id : Nat
deriving DecidableEq

/-- Opaque handle for `*statusresource.CollectorSet`. -/
structure StatusCollectorSet where
  id : Nat
deriving DecidableEq

/-- Opaque handle for `*version.Service`. -/
structure VersionService where
  id : Nat
deriving DecidableEq

/-- The argument record built by `buildK8sRestConfig` and passed to
`k8srestconfig.New` (logger omitted: opaque collaborator handle). -/
structure RestConfigParams where
  address : String
  inCluster : Bool
  kubeConfig : String
  caFile : String
  crtFile : String
  keyFile : String
deriving DecidableEq

/-- `k8sclient.ClientsConfig` as `New` fills it in: the kubeconfig path and
the (possibly nil) rest config.  The `Logger` and `SchemeBuilder` fields are
opaque collaborator values with no bearing on the claims and are omitted. -/
structure ClientsConfig where
  kubeConfigPath : String
  restConfig : Option RestConfig
deriving DecidableEq

/-- `collector.SetConfig` as `New` fills it in (logger omitted). -/
structure SetConfig where
  controlPlaneResourceGroup : String
  location : String
  k8sClient : Clients
  gsTenantID : String
deriving DecidableEq

/-- `statusresource.CollectorSetConfig` as `New` fills it in: the watcher is
`k8sClient.G8sClient().ProviderV1alpha1().AzureConfigs("").Watch`, recorded
here as the client the watcher is derived from plus the namespace argument
(the empty string: cluster-wide).  Logger omitted. -/
structure StatusCollectorSetConfig where
  watcherClient : Clients
  watchNamespace : String
deriving DecidableEq

/-- `version.Config` as `New` fills it in.  The `VersionBundles` field is a
fixed opaque value (`project.NewVersionBundle()`) and is omitted. -/
structure VersionConfig where
  description : String
  gitCommit : String
  name : String
  source : String
  version : String
deriving DecidableEq

/-- One call into an external collaborator, with the exact argument record
the Go code passes.  `buildRestConfig` and `newClients` are the calls that
can perform file reads / network I/O. -/
inductive ExtCall where
  | buildRestConfig (p : RestConfigParams)
  | newClients (c : ClientsConfig)
  | newCollectorSet (c : SetConfig)
  | newStatusCollectorSet (c : StatusCollectorSetConfig)
  | newVersionService (c : VersionConfig)
deriving DecidableEq

/-- The behaviour of the external collaborators: each constructor either
returns a handle or fails with an error.  `New` is proved correct for every
`Env`, so nothing is assumed about what the collaborators do. -/
structure Env where
  k8srestconfigNew : RestConfigParams → Except Err RestConfig
  k8sclientNewClients : ClientsConfig → Except Err Clients
  collectorNewSet : SetConfig → Except Err CollectorSet
  statusresourceNewCollectorSet : StatusCollectorSetConfig → Except Err StatusCollectorSet
  versionNew : VersionConfig → Except Err VersionService

/-- `service.Service`: the version service handle, the two collector sets,
and the `sync.Once` boot guard modelled as its observable state — whether
the guarded function has already run. -/
structure Service where
  version : VersionService
  booted : Bool
  operatorCollector : CollectorSet
  statusResourceCollector : StatusCollectorSet
deriving DecidableEq

/-- The `invalidConfigError` produced when `config.Logger` is nil. -/
def loggerEmptyErr : Err :=
  ⟨ErrKind.invalidConfig, "service.Config.Logger must not be empty"⟩

/-- The `invalidConfigError` produced when `config.Flag` is nil. -/
def flagEmptyErr : Err :=
  ⟨ErrKind.invalidConfig, "service.Config.Flag must not be empty"⟩

/-- The `invalidConfigError` produced when `config.Viper` is nil. -/
def viperEmptyErr : Err :=
  ⟨ErrKind.invalidConfig, "service.Config.Viper must not be empty"⟩

/-- The `invalidConfigError` produced when `config.Description` is empty. -/
def descriptionEmptyErr : Err :=
  ⟨ErrKind.invalidConfig, "service.Config.Description must not be empty"⟩

/-- The `invalidConfigError` produced when `config.GitCommit` is empty. -/
def gitCommitEmptyErr : Err :=
  ⟨ErrKind.invalidConfig, "service.Config.GitCommit must not be empty"⟩

/-- The `invalidConfigError` produced when `config.ProjectName` is empty. -/
def projectNameEmptyErr : Err :=
  ⟨ErrKind.invalidConfig, "service.Config.ProjectName must not be empty"⟩

/-- The `invalidConfigError` produced when `config.Source` is empty. -/
def sourceEmptyErr : Err :=
  ⟨ErrKind.invalidConfig, "service.Config.Source must not be empty"⟩

/-- The `invalidConfigError` produced when no connection strategy is set. -/
def noStrategyErr : Err :=
  ⟨ErrKind.invalidConfig, "address or inCluster or kubeConfigPath must be defined"⟩

/-- The `invalidConfigError` produced when several strategies are set. -/
def ambiguousStrategyErr : Err :=
  ⟨ErrKind.invalidConfig,
    "address and inCluster and kubeConfigPath must not be defined at the same time"⟩

/-- The strategy count from `New`: how many of address / inCluster /
kubeConfigPath are defined (non-empty string, true boolean). -/
def definedCount (address : String) (inCluster : Bool) (kubeConfigPath : String) : Nat :=
  (if address = "" then 0 else 1) + (if inCluster then 1 else 0)
    + (if kubeConfigPath = "" then 0 else 1)

/-- The argument record `buildK8sRestConfig` assembles from viper before
calling `k8srestconfig.New`. -/
def buildK8sRestConfigParams (vs : ViperState) : RestConfigParams :=
  { address := vs.kubernetesAddress
    inCluster := vs.kubernetesInCluster
    kubeConfig := vs.kubernetesKubeConfig
    caFile := vs.tlsCAFile
    crtFile := vs.tlsCrtFile
    keyFile := vs.tlsKeyFile }

/-- The k8s client block of `New` (`service.go` lines 73–120): count the
defined connection strategies, reject 0 or ≥ 2, build a rest config via
`buildK8sRestConfig` only when the kubeconfig path is empty, then call
`k8sclient.NewClients` with the kubeconfig path and the (possibly nil)
rest config.  Returns the result of the block together with the trace of
collaborator calls it made, in order. -/
def newK8sClient (env : Env) (vs : ViperState) : Except Err Clients × List ExtCall :=
  let address := vs.kubernetesAddress
  let inCluster := vs.kubernetesInCluster
  let kubeConfigPath := vs.kubernetesKubeConfigPath
  if definedCount address inCluster kubeConfigPath = 0 then
    (Except.error noStrategyErr, [])
  else if 1 < definedCount address inCluster kubeConfigPath then
    (Except.error ambiguousStrategyErr, [])
  else
    let restStep : Except Err (Option RestConfig) × List ExtCall :=
      if kubeConfigPath = "" then
        let p := buildK8sRestConfigParams vs
        ((env.k8srestconfigNew p).map some, [ExtCall.buildRestConfig p])
      else
        (Except.ok none, [])
    match restStep with
    | (Except.error e, t) => (Except.error e, t)
    | (Except.ok restConfig, t) =>
      let cc : ClientsConfig := { kubeConfigPath := kubeConfigPath, restConfig := restConfig }
      (env.k8sclientNewClients cc, t ++ [ExtCall.newClients cc])

/-- The collector-assembly tail of `New` (`service.go` lines 122–177): the
operator collector set block, the status resource collector set block and
the version service block, in order, failing fast at the first error.
Returns the assembled service (the boot guard fresh: `booted := false`)
together with the trace of constructor calls made by these blocks. -/
def newCollectors (env : Env) (config : Config) (vs : ViperState) (k8sClient : Clients) :
    Except Err Service × List ExtCall :=
  let oc : SetConfig :=
    { controlPlaneResourceGroup := vs.controlPlaneResourceGroup
      location := vs.location
      k8sClient := k8sClient
      gsTenantID := vs.azureSPTenantID }
  match env.collectorNewSet oc with
  | Except.error e => (Except.error e, [ExtCall.newCollectorSet oc])
  | Except.ok operatorCollector =>
    let sc : StatusCollectorSetConfig :=
      { watcherClient := k8sClient, watchNamespace := "" }
    match env.statusresourceNewCollectorSet sc with
    | Except.error e =>
      (Except.error e, [ExtCall.newCollectorSet oc, ExtCall.newStatusCollectorSet sc])
    | Except.ok statusResourceCollector =>
      let vc : VersionConfig :=
        { description := config.description
          gitCommit := config.gitCommit
          name := config.projectName
          source := config.source
          version := config.version }
      match env.versionNew vc with
      | Except.error e =>
        (Except.error e,
          [ExtCall.newCollectorSet oc, ExtCall.newStatusCollectorSet sc,
            ExtCall.newVersionService vc])
      | Except.ok versionService =>
        (Except.ok
          { version := versionService
            booted := false
            operatorCollector := operatorCollector
            statusResourceCollector := statusResourceCollector },
          [ExtCall.newCollectorSet oc, ExtCall.newStatusCollectorSet sc,
            ExtCall.newVersionService vc])

/-- `service.New` (`service.go` lines 47–177): nil checks on logger, flag
and viper, non-emptiness checks on description, gitCommit, projectName and
source, then the k8s client block, then the collector-assembly blocks,
failing fast at the first error.  The second component is the trace of
collaborator calls made. -/
def New (env : Env) (config : Config) : Except Err Service × List ExtCall :=
  if config.logger.isNone then
    (Except.error loggerEmptyErr, [])
  else if config.flag.isNone then
    (Except.error flagEmptyErr, [])
  else
    match config.viper with
    | none =>
      (Except.error viperEmptyErr, [])
    | some vs =>
      if config.description = "" then
        (Except.error descriptionEmptyErr, [])
      else if config.gitCommit = "" then
        (Except.error gitCommitEmptyErr, [])
      else if config.projectName = "" then
        (Except.error projectNameEmptyErr, [])
      else if config.source = "" then
        (Except.error sourceEmptyErr, [])
      else
        match newK8sClient env vs with
        | (Except.error e, t) => (Except.error e, t)
        | (Except.ok k8sClient, t) =>
          let r := newCollectors env config vs k8sClient
          (r.1, t ++ r.2)

/-- A `context.Context` handle passed to `Boot`. -/
structure Ctx where
  id : Nat
deriving DecidableEq

/-- One `go` statement issued by `Boot`: which collector set's run loop is
started in its own goroutine, and with which context. -/
inductive BootAction where
  | startOperatorCollector (ctx : Ctx)
  | startStatusResourceCollector (ctx : Ctx)
deriving DecidableEq

/-- `Service.Boot` (`service.go` lines 179–184): `sync.Once.Do` runs the
guarded function exactly once and serialises concurrent callers, so it is
modelled as an atomic test-and-set on `booted`.  The first call emits the
two `go` statements (as deferred `BootAction`s — `Boot` itself does not run
either loop); every later call is a no-op.  `Boot` returns no value and no
error, so its codomain here is just the updated state plus the actions. -/
def Service.Boot (s : Service) (ctx : Ctx) : Service × List BootAction :=
  if s.booted then
    (s, [])
  else
    ({ s with booted := true },
      [BootAction.startOperatorCollector ctx, BootAction.startStatusResourceCollector ctx])

/-- A sequence of `Boot` calls (each atomic, per `sync.Once.Do`), threading
the service state and concatenating the emitted actions.  Concurrent callers
serialise into such a sequence. -/
def bootSeq (s : Service) : List Ctx → Service × List BootAction
  | [] => (s, [])
  | c :: cs =>
    let r := s.Boot c
    let r2 := bootSeq r.1 cs
    (r2.1, r.2 ++ r2.2)

/-- Running the spawned goroutines: each `BootAction` evaluates the
corresponding collector set's run loop on its context, independently of the
other — the embedding of the fact that each loop lives in its own goroutine
and that `Boot` discards their error returns. -/
def runSpawned (opRun statusRun : Ctx → Except Err Unit) (acts : List BootAction) :
    List (Except Err Unit) :=
  acts.map fun a =>
    match a with
    | BootAction.startOperatorCollector c => opRun c
    | BootAction.startStatusResourceCollector c => statusRun c

/-! ## Concrete fixtures

An environment in which every collaborator constructor succeeds, and some
concrete configurations, used to evaluate the definitions on closed inputs. -/

/-- An environment where every external constructor succeeds. -/
def happyEnv : Env :=
  { k8srestconfigNew := fun _ => Except.ok ⟨0⟩
    k8sclientNewClients := fun _ => Except.ok ⟨0⟩
    collectorNewSet := fun _ => Except.ok ⟨0⟩
    statusresourceNewCollectorSet := fun _ => Except.ok ⟨0⟩
    versionNew := fun _ => Except.ok ⟨0⟩ }

/-- Viper values selecting only the in-cluster strategy (the spec's
end-to-end example). -/
def inClusterViper : ViperState :=
  { kubernetesAddress := ""
    kubernetesInCluster := true
    kubernetesKubeConfigPath := ""
    kubernetesKubeConfig := ""
    tlsCAFile := ""
    tlsCrtFile := ""
    tlsKeyFile := ""
    controlPlaneResourceGroup := "rg1"
    location := "westeurope"
    azureSPTenantID := "t1" }

/-- Viper values with no connection strategy selected. -/
def zeroViper : ViperState :=
  { inClusterViper with kubernetesInCluster := false }

/-- Viper values selecting only the kubeconfig-path strategy. -/
def kubeConfigViper : ViperState :=
  { inClusterViper with
      kubernetesInCluster := false
      kubernetesKubeConfigPath := "/home/user/.kube/config" }

/-- Viper values selecting both the address and the in-cluster strategies. -/
def ambiguousViper : ViperState :=
  { inClusterViper with kubernetesAddress := "https://api.example:6443" }

/-- The spec's end-to-end example configuration, in-cluster strategy. -/
def baseConfig : Config :=
  { logger := some ⟨0⟩
    flag := some ⟨0⟩
    viper := some inClusterViper
    description := "d"
    gitCommit := "abc123"
    projectName := "collector"
    source := "src"
    version := "1.0" }

/-! ## Helper lemmas -/

/-- When the strategy count is not exactly one, the k8s client block fails
with an `invalidConfigError` and makes no collaborator call. -/
theorem newK8sClient_badCount (env : Env) (vs : ViperState)
    (h : definedCount vs.kubernetesAddress vs.kubernetesInCluster
      vs.kubernetesKubeConfigPath ≠ 1) :
    ∃ e : Err, newK8sClient env vs = (Except.error e, []) ∧
      e.kind = ErrKind.invalidConfig := by
  by_cases h0 : definedCount vs.kubernetesAddress vs.kubernetesInCluster
      vs.kubernetesKubeConfigPath = 0
  · exact ⟨noStrategyErr, by simp [newK8sClient, h0], rfl⟩
  · have h1 : 1 < definedCount vs.kubernetesAddress vs.kubernetesInCluster
        vs.kubernetesKubeConfigPath := by omega
    exact ⟨ambiguousStrategyErr, by simp [newK8sClient, h0, h1, Nat.ne_of_gt h1], rfl⟩

/-- Any result of `New` that is an `invalidConfigError` return carries an
empty trace, and conversely every early-validation failure path yields an
invalid-config error with the empty trace.  Stated as: whenever the strategy
count is not one, `New` fails with an invalid-config error and no
collaborator call is made. -/
theorem New_badCount (env : Env) (config : Config) (vs : ViperState)
    (hv : config.viper = some vs)
    (h : definedCount vs.kubernetesAddress vs.kubernetesInCluster
      vs.kubernetesKubeConfigPath ≠ 1) :
    ∃ e : Err, New env config = (Except.error e, []) ∧
      e.kind = ErrKind.invalidConfig := by
  obtain ⟨e, he, hkind⟩ := newK8sClient_badCount env vs h
  unfold New
  rw [hv]
  by_cases hl : config.logger.isNone
  · exact ⟨loggerEmptyErr, by simp [hl], rfl⟩
  by_cases hf : config.flag.isNone
  · exact ⟨flagEmptyErr, by simp [hl, hf], rfl⟩
  by_cases hd : config.description = ""
  · exact ⟨descriptionEmptyErr, by simp [hl, hf, hd], rfl⟩
  by_cases hg : config.gitCommit = ""
  · exact ⟨gitCommitEmptyErr, by simp [hl, hf, hd, hg], rfl⟩
  by_cases hp : config.projectName = ""
  · exact ⟨projectNameEmptyErr, by simp [hl, hf, hd, hg, hp], rfl⟩
  by_cases hs : config.source = ""
  · exact ⟨sourceEmptyErr, by simp [hl, hf, hd, hg, hp, hs], rfl⟩
  · exact ⟨e, by simp [hl, hf, hd, hg, hp, hs, he], hkind⟩

/-- Configuration whose viper values select no connection strategy. -/
def cfgZeroStrategy : Config :=
  { baseConfig with viper := some zeroViper }

/-- Configuration whose viper values select two connection strategies. -/
def cfgAmbiguous : Config :=
  { baseConfig with viper := some ambiguousViper }

/-- Configuration whose viper values select only the kubeconfig path. -/
def cfgKubeConfig : Config :=
  { baseConfig with viper := some kubeConfigViper }

/-- Configuration identical to the end-to-end example except that the
version string is empty. -/
def cfgEmptyVersion : Config :=
  { baseConfig with version := "" }

/-- Configuration identical to the end-to-end example except that the
project name is empty. -/
def cfgEmptyProject : Config :=
  { baseConfig with projectName := "" }

/-- Configuration with a nil logger handle and an empty description. -/
def cfgNilLogger : Config :=
  { baseConfig with logger := none, description := "" }

/-- Every call made by the collector-assembly tail is a collector-set,
status-collector-set or version-service construction: the tail never builds
a rest config and never constructs another API client. -/
theorem newCollectors_calls (env : Env) (config : Config) (vs : ViperState) (k : Clients) :
    ∀ c ∈ (newCollectors env config vs k).2,
      (∀ p, c ≠ ExtCall.buildRestConfig p) ∧ (∀ cc, c ≠ ExtCall.newClients cc) := by
  intro c hc
  unfold newCollectors at hc
  cases h1 : env.collectorNewSet
      ⟨vs.controlPlaneResourceGroup, vs.location, k, vs.azureSPTenantID⟩ with
  | error e =>
    simp [h1] at hc
    subst hc
    exact ⟨fun p => by simp, fun cc => by simp⟩
  | ok opc =>
    cases h2 : env.statusresourceNewCollectorSet ⟨k, ""⟩ with
    | error e =>
      simp [h1, h2] at hc
      rcases hc with hc | hc <;> subst hc <;>
        exact ⟨fun p => by simp, fun cc => by simp⟩
    | ok st =>
      cases h3 : env.versionNew
          ⟨config.description, config.gitCommit, config.projectName,
            config.source, config.version⟩ with
      | error e =>
        simp [h1, h2, h3] at hc
        rcases hc with hc | hc | hc <;> subst hc <;>
          exact ⟨fun p => by simp, fun cc => by simp⟩
      | ok vsv =>
        simp [h1, h2, h3] at hc
        rcases hc with hc | hc | hc <;> subst hc <;>
          exact ⟨fun p => by simp, fun cc => by simp⟩

/-- Inversion for a successful collector-assembly tail: the boot guard of
the returned service is fresh, and each collector set of the service is the
successful result of its constructor, whose call is in the trace. -/
theorem newCollectors_ok (env : Env) (config : Config) (vs : ViperState) (k : Clients)
    (s : Service) (t : List ExtCall)
    (h : newCollectors env config vs k = (Except.ok s, t)) :
    s.booted = false ∧
    ExtCall.newCollectorSet
      ⟨vs.controlPlaneResourceGroup, vs.location, k, vs.azureSPTenantID⟩ ∈ t ∧
    env.collectorNewSet
      ⟨vs.controlPlaneResourceGroup, vs.location, k, vs.azureSPTenantID⟩ =
      Except.ok s.operatorCollector ∧
    ExtCall.newStatusCollectorSet ⟨k, ""⟩ ∈ t ∧
    env.statusresourceNewCollectorSet ⟨k, ""⟩ = Except.ok s.statusResourceCollector ∧
    env.versionNew
      ⟨config.description, config.gitCommit, config.projectName,
        config.source, config.version⟩ = Except.ok s.version := by
  unfold newCollectors at h
  cases h1 : env.collectorNewSet
      ⟨vs.controlPlaneResourceGroup, vs.location, k, vs.azureSPTenantID⟩ with
  | error e => simp [h1] at h
  | ok opc =>
    cases h2 : env.statusresourceNewCollectorSet ⟨k, ""⟩ with
    | error e => simp [h1, h2] at h
    | ok st =>
      cases h3 : env.versionNew
          ⟨config.description, config.gitCommit, config.projectName,
            config.source, config.version⟩ with
      | error e => simp [h1, h2, h3] at h
      | ok vsv =>
        simp only [h1, h2, h3, Prod.mk.injEq] at h
        obtain ⟨hs, ht⟩ := h
        rw [Except.ok.injEq] at hs
        subst hs
        subst ht
        refine ⟨rfl, by simp, by simp [h1], by simp, by simp [h2], by simp [h3]⟩

/-- When only the kubeconfig path is set, the k8s client block makes exactly
one collaborator call: `k8sclient.NewClients` with the path passed through
verbatim and a nil rest config; `buildK8sRestConfig` is not invoked. -/
theorem newK8sClient_kubeconfig_only (env : Env) (vs : ViperState)
    (ha : vs.kubernetesAddress = "") (hi : vs.kubernetesInCluster = false)
    (hk : vs.kubernetesKubeConfigPath ≠ "") :
    newK8sClient env vs =
      (env.k8sclientNewClients ⟨vs.kubernetesKubeConfigPath, none⟩,
        [ExtCall.newClients ⟨vs.kubernetesKubeConfigPath, none⟩]) := by
  have hc : definedCount vs.kubernetesAddress vs.kubernetesInCluster
      vs.kubernetesKubeConfigPath = 1 := by
    simp [definedCount, ha, hi, hk]
  simp [newK8sClient, hc, hk]

/-- In every trace of the k8s client block, a `newClients` call whose rest
config is populated carries an empty kubeconfig path. -/
theorem newK8sClient_clients_exclusive (env : Env) (vs : ViperState) (cc : ClientsConfig)
    (hmem : ExtCall.newClients cc ∈ (newK8sClient env vs).2) :
    cc.restConfig.isSome = true → cc.kubeConfigPath = "" := by
  intro hsome
  unfold newK8sClient at hmem
  by_cases h0 : definedCount vs.kubernetesAddress vs.kubernetesInCluster
      vs.kubernetesKubeConfigPath = 0
  · simp [h0] at hmem
  · by_cases h1 : 1 < definedCount vs.kubernetesAddress vs.kubernetesInCluster
        vs.kubernetesKubeConfigPath
    · simp [h0, h1] at hmem
    · by_cases hkc : vs.kubernetesKubeConfigPath = ""
      · rw [hkc] at h0 h1
        cases hr : env.k8srestconfigNew (buildK8sRestConfigParams vs) with
        | error e => simp [h0, h1, hkc, hr, Except.map] at hmem
        | ok rc =>
          simp [h0, h1, hkc, hr, Except.map] at hmem
          subst hmem
          rfl
      · simp [h0, h1, hkc] at hmem
        subst hmem
        simp at hsome

/-- In every trace of `New`, a `newClients` call whose rest config is
populated carries an empty kubeconfig path: the two forms of a resolved
connection are never both populated. -/
theorem New_clients_exclusive (env : Env) (config : Config) (cc : ClientsConfig)
    (hmem : ExtCall.newClients cc ∈ (New env config).2) :
    cc.restConfig.isSome = true → cc.kubeConfigPath = "" := by
  intro hsome
  unfold New at hmem
  by_cases hl : config.logger.isNone
  · simp [hl] at hmem
  by_cases hf : config.flag.isNone
  · simp [hl, hf] at hmem
  cases hvp : config.viper with
  | none => simp [hl, hf, hvp] at hmem
  | some vs =>
    by_cases hd : config.description = ""
    · simp [hl, hf, hvp, hd] at hmem
    by_cases hg : config.gitCommit = ""
    · simp [hl, hf, hvp, hd, hg] at hmem
    by_cases hp : config.projectName = ""
    · simp [hl, hf, hvp, hd, hg, hp] at hmem
    by_cases hsrc : config.source = ""
    · simp [hl, hf, hvp, hd, hg, hp, hsrc] at hmem
    rcases hK : newK8sClient env vs with ⟨res, t⟩
    cases res with
    | error e =>
      simp [hl, hf, hvp, hd, hg, hp, hsrc, hK] at hmem
      exact newK8sClient_clients_exclusive env vs cc (by rw [hK]; exact hmem) hsome
    | ok k =>
      simp [hl, hf, hvp, hd, hg, hp, hsrc, hK, List.mem_append] at hmem
      rcases hmem with hmem | hmem
      · exact newK8sClient_clients_exclusive env vs cc (by rw [hK]; exact hmem) hsome
      · exact absurd rfl ((newCollectors_calls env config vs k _ hmem).2 cc)

/-! ## Claims -/

/-- C1: For every configuration in which none of the three connection
parameters (address non-empty, in-cluster flag true, kubeconfig path
non-empty) is defined, the construction entry point `New` returns an
`InvalidConfiguration` error and no service handle. -/
theorem New_zero_strategies_fails (env : Env) (config : Config) (vs : ViperState)
    (hv : config.viper = some vs)
    (ha : vs.kubernetesAddress = "") (hi : vs.kubernetesInCluster = false)
    (hk : vs.kubernetesKubeConfigPath = "") :
    ∃ e : Err, (New env config).1 = Except.error e ∧ e.kind = ErrKind.invalidConfig := by
  have hc : definedCount vs.kubernetesAddress vs.kubernetesInCluster
      vs.kubernetesKubeConfigPath = 0 := by
    simp [definedCount, ha, hi, hk]
  obtain ⟨e, he, hkind⟩ := New_badCount env config vs hv (by omega)
  exact ⟨e, by rw [he], hkind⟩

/-- Witness for C1 on a concrete configuration with no strategy set. -/
theorem New_zero_strategies_fails_witness :
    ∃ e : Err, (New happyEnv cfgZeroStrategy).1 = Except.error e ∧
      e.kind = ErrKind.invalidConfig :=
  New_zero_strategies_fails happyEnv cfgZeroStrategy zeroViper rfl rfl rfl rfl

/-- C2: For every configuration in which two or more of the three connection
parameters (address non-empty, in-cluster flag true, kubeconfig path
non-empty) are defined, the construction entry point `New` returns an
`InvalidConfiguration` error and no service handle. -/
theorem New_multiple_strategies_fails (env : Env) (config : Config) (vs : ViperState)
    (hv : config.viper = some vs)
    (h2 : 2 ≤ definedCount vs.kubernetesAddress vs.kubernetesInCluster
      vs.kubernetesKubeConfigPath) :
    ∃ e : Err, (New env config).1 = Except.error e ∧ e.kind = ErrKind.invalidConfig := by
  obtain ⟨e, he, hkind⟩ := New_badCount env config vs hv (by omega)
  exact ⟨e, by rw [he], hkind⟩

/-- Witness for C2 on a concrete configuration with both the address and the
in-cluster strategies set. -/
theorem New_multiple_strategies_fails_witness :
    ∃ e : Err, (New happyEnv cfgAmbiguous).1 = Except.error e ∧
      e.kind = ErrKind.invalidConfig :=
  New_multiple_strategies_fails happyEnv cfgAmbiguous ambiguousViper rfl (by decide)

/-- C7: Strategy validation precedes transport construction: whenever the
count of defined connection strategies is not exactly one (and the checks
preceding it in the code pass), `New` returns exactly the count-check
failure — the strategy-count `invalidConfigError` — and the collaborator
call trace is empty: no REST descriptor is built, no API client is
constructed, no network I/O happens. -/
theorem New_count_check_before_transport (env : Env) (config : Config) (vs : ViperState)
    (hv : config.viper = some vs)
    (hl : config.logger.isSome) (hf : config.flag.isSome)
    (hd : config.description ≠ "") (hg : config.gitCommit ≠ "")
    (hp : config.projectName ≠ "") (hs : config.source ≠ "")
    (hcount : definedCount vs.kubernetesAddress vs.kubernetesInCluster
      vs.kubernetesKubeConfigPath ≠ 1) :
    New env config =
      (Except.error
        (if definedCount vs.kubernetesAddress vs.kubernetesInCluster
            vs.kubernetesKubeConfigPath = 0 then noStrategyErr else ambiguousStrategyErr),
        []) := by
  obtain ⟨l, hl'⟩ := Option.isSome_iff_exists.mp hl
  obtain ⟨f, hf'⟩ := Option.isSome_iff_exists.mp hf
  by_cases h0 : definedCount vs.kubernetesAddress vs.kubernetesInCluster
      vs.kubernetesKubeConfigPath = 0
  · have hk : newK8sClient env vs = (Except.error noStrategyErr, []) := by
      simp [newK8sClient, h0]
    simp [New, hv, hl', hf', hd, hg, hp, hs, hk, h0]
  · have h1 : 1 < definedCount vs.kubernetesAddress vs.kubernetesInCluster
        vs.kubernetesKubeConfigPath := by omega
    have hk : newK8sClient env vs = (Except.error ambiguousStrategyErr, []) := by
      simp [newK8sClient, h0, h1, Nat.ne_of_gt h1]
    simp [New, hv, hl', hf', hd, hg, hp, hs, hk, h0]

/-- Witness for C7 on a concrete configuration with no strategy set:
the result is exactly the no-strategy error with an empty call trace. -/
theorem New_count_check_before_transport_witness :
    New happyEnv cfgZeroStrategy = (Except.error noStrategyErr, []) := by
  have h := New_count_check_before_transport happyEnv cfgZeroStrategy zeroViper rfl
    (by decide) (by decide) (by decide) (by decide) (by decide) (by decide) (by decide)
  simpa using h

/-- C3, counterexample: the claim says an empty version string makes `New`
fail before any connection resolution or network I/O.  On the concrete
configuration that differs from the spec's end-to-end example only in
`version := ""`, and under collaborators that accept their arguments,
`New` succeeds — and its trace shows that the rest config was built and the
client, collector sets and version service were all constructed despite the
empty version. -/
theorem New_empty_version_not_rejected :
    (New happyEnv cfgEmptyVersion).1 =
      Except.ok ⟨⟨0⟩, false, ⟨0⟩, ⟨0⟩⟩ ∧
    (New happyEnv cfgEmptyVersion).2 =
      [ExtCall.buildRestConfig (buildK8sRestConfigParams inClusterViper),
        ExtCall.newClients ⟨"", some ⟨0⟩⟩,
        ExtCall.newCollectorSet ⟨"rg1", "westeurope", ⟨0⟩, "t1"⟩,
        ExtCall.newStatusCollectorSet ⟨⟨0⟩, ""⟩,
        ExtCall.newVersionService ⟨"d", "abc123", "collector", "src", ""⟩] :=
  ⟨rfl, rfl⟩

/-- C3, amended: `New` validates the four identity fields description,
gitCommit, projectName and source — in that order — and an empty one makes
construction fail with the `invalidConfigError` naming the first empty
field, before any collaborator call (empty trace, so no connection
resolution and no network I/O).  The version string is not among the fields
`New` checks. -/
theorem New_identity_fields_checked (env : Env) (config : Config)
    (hl : config.logger.isSome) (hf : config.flag.isSome) (hv : config.viper.isSome)
    (h : config.description = "" ∨ config.gitCommit = "" ∨
      config.projectName = "" ∨ config.source = "") :
    (New env config).2 = [] ∧
    ∃ e : Err, (New env config).1 = Except.error e ∧ e.kind = ErrKind.invalidConfig ∧
      ((config.description = "" ∧ e = descriptionEmptyErr) ∨
       (config.description ≠ "" ∧ config.gitCommit = "" ∧ e = gitCommitEmptyErr) ∨
       (config.description ≠ "" ∧ config.gitCommit ≠ "" ∧ config.projectName = "" ∧
         e = projectNameEmptyErr) ∨
       (config.description ≠ "" ∧ config.gitCommit ≠ "" ∧ config.projectName ≠ "" ∧
         config.source = "" ∧ e = sourceEmptyErr)) := by
  obtain ⟨l, hl'⟩ := Option.isSome_iff_exists.mp hl
  obtain ⟨f, hf'⟩ := Option.isSome_iff_exists.mp hf
  obtain ⟨vs, hv'⟩ := Option.isSome_iff_exists.mp hv
  by_cases hd : config.description = ""
  · exact ⟨by simp [New, hl', hf', hv', hd],
      descriptionEmptyErr, by simp [New, hl', hf', hv', hd], rfl, Or.inl ⟨hd, rfl⟩⟩
  · by_cases hg : config.gitCommit = ""
    · exact ⟨by simp [New, hl', hf', hv', hd, hg],
        gitCommitEmptyErr, by simp [New, hl', hf', hv', hd, hg], rfl,
        Or.inr (Or.inl ⟨hd, hg, rfl⟩)⟩
    · by_cases hp : config.projectName = ""
      · exact ⟨by simp [New, hl', hf', hv', hd, hg, hp],
          projectNameEmptyErr, by simp [New, hl', hf', hv', hd, hg, hp], rfl,
          Or.inr (Or.inr (Or.inl ⟨hd, hg, hp, rfl⟩))⟩
      · by_cases hsrc : config.source = ""
        · exact ⟨by simp [New, hl', hf', hv', hd, hg, hp, hsrc],
            sourceEmptyErr, by simp [New, hl', hf', hv', hd, hg, hp, hsrc], rfl,
            Or.inr (Or.inr (Or.inr ⟨hd, hg, hp, hsrc, rfl⟩))⟩
        · exact absurd h (by simp [hd, hg, hp, hsrc])

/-- Witness for the amended C3 on a concrete configuration with an empty
project name. -/
theorem New_identity_fields_checked_witness :
    (New happyEnv cfgEmptyProject).2 = [] ∧
    ∃ e : Err, (New happyEnv cfgEmptyProject).1 = Except.error e ∧
      e.kind = ErrKind.invalidConfig ∧
      ((cfgEmptyProject.description = "" ∧ e = descriptionEmptyErr) ∨
       (cfgEmptyProject.description ≠ "" ∧ cfgEmptyProject.gitCommit = "" ∧
         e = gitCommitEmptyErr) ∨
       (cfgEmptyProject.description ≠ "" ∧ cfgEmptyProject.gitCommit ≠ "" ∧
         cfgEmptyProject.projectName = "" ∧ e = projectNameEmptyErr) ∨
       (cfgEmptyProject.description ≠ "" ∧ cfgEmptyProject.gitCommit ≠ "" ∧
         cfgEmptyProject.projectName ≠ "" ∧ cfgEmptyProject.source = "" ∧
         e = sourceEmptyErr)) :=
  New_identity_fields_checked happyEnv cfgEmptyProject rfl rfl rfl
    (Or.inr (Or.inr (Or.inl rfl)))

/-- C4: For every configuration in which the kubeconfig path is the only
defined connection parameter (and the preceding validation passes), `New`
never calls `buildK8sRestConfig` — no rest descriptor is built, no TLS file
paths are read — and the kubeconfig path is passed verbatim to the client
factory with a nil rest-config field; moreover, in every run of `New`
whatsoever, no client-factory call carries both a kubeconfig path and a
populated rest config. -/
theorem New_kubeconfig_passthrough (env : Env) (config : Config) (vs : ViperState)
    (hv : config.viper = some vs)
    (hl : config.logger.isSome) (hf : config.flag.isSome)
    (hd : config.description ≠ "") (hg : config.gitCommit ≠ "")
    (hp : config.projectName ≠ "") (hs : config.source ≠ "")
    (ha : vs.kubernetesAddress = "") (hi : vs.kubernetesInCluster = false)
    (hk : vs.kubernetesKubeConfigPath ≠ "") :
    (∀ p, ExtCall.buildRestConfig p ∉ (New env config).2) ∧
    ExtCall.newClients ⟨vs.kubernetesKubeConfigPath, none⟩ ∈ (New env config).2 ∧
    (∀ (env' : Env) (config' : Config) (cc : ClientsConfig),
      ExtCall.newClients cc ∈ (New env' config').2 →
      cc.restConfig.isSome = true → cc.kubeConfigPath = "") := by
  obtain ⟨l, hl'⟩ := Option.isSome_iff_exists.mp hl
  obtain ⟨f, hf'⟩ := Option.isSome_iff_exists.mp hf
  have hK := newK8sClient_kubeconfig_only env vs ha hi hk
  have htr : ∃ rest : List ExtCall,
      (New env config).2 = ExtCall.newClients ⟨vs.kubernetesKubeConfigPath, none⟩ :: rest ∧
      ∀ c ∈ rest, (∀ p, c ≠ ExtCall.buildRestConfig p) ∧
        (∀ cc, c ≠ ExtCall.newClients cc) := by
    cases hc : env.k8sclientNewClients ⟨vs.kubernetesKubeConfigPath, none⟩ with
    | error e =>
      exact ⟨[], by simp [New, hl', hf', hv, hd, hg, hp, hs, hK, hc], by simp⟩
    | ok k =>
      exact ⟨(newCollectors env config vs k).2,
        by simp [New, hl', hf', hv, hd, hg, hp, hs, hK, hc],
        newCollectors_calls env config vs k⟩
  obtain ⟨rest, htr, hrest⟩ := htr
  refine ⟨?_, ?_, fun env' config' cc hmem hsome =>
    New_clients_exclusive env' config' cc hmem hsome⟩
  · intro p hmemP
    rw [htr] at hmemP
    rcases List.mem_cons.mp hmemP with hcontra | hmemP
    · simp at hcontra
    · exact absurd rfl ((hrest _ hmemP).1 p)
  · rw [htr]
    exact List.mem_cons_self _ _

/-- Witness for C4 on a concrete configuration with only the kubeconfig
path set. -/
theorem New_kubeconfig_passthrough_witness :
    (∀ p, ExtCall.buildRestConfig p ∉ (New happyEnv cfgKubeConfig).2) ∧
    ExtCall.newClients ⟨"/home/user/.kube/config", none⟩ ∈ (New happyEnv cfgKubeConfig).2 ∧
    (∀ (env' : Env) (config' : Config) (cc : ClientsConfig),
      ExtCall.newClients cc ∈ (New env' config').2 →
      cc.restConfig.isSome = true → cc.kubeConfigPath = "") :=
  New_kubeconfig_passthrough happyEnv cfgKubeConfig kubeConfigViper rfl rfl rfl
    (by decide) (by decide) (by decide) (by decide) rfl rfl (by decide)

/-- C10: `New` requires the Logger, Flag and Viper handles to be non-nil,
checked in that order before any identity-field or connection-strategy
validation: whenever one of the three is nil, `New` fails with the
`invalidConfigError` naming the first nil handle — whatever the identity
fields and viper values contain — and makes no collaborator call. -/
theorem New_nil_handles_checked_first (env : Env) (config : Config)
    (h : config.logger = none ∨ config.flag = none ∨ config.viper = none) :
    New env config =
      (Except.error
        (if config.logger = none then loggerEmptyErr
         else if config.flag = none then flagEmptyErr
         else viperEmptyErr), []) := by
  cases hcl : config.logger with
  | none => simp [New, hcl]
  | some l =>
    cases hcf : config.flag with
    | none => simp [New, hcl, hcf]
    | some f =>
      have hv : config.viper = none := by
        rcases h with h | h | h
        · rw [hcl] at h; exact absurd h (by simp)
        · rw [hcf] at h; exact absurd h (by simp)
        · exact h
      simp [New, hcl, hcf, hv]

/-- Witness for C10 on a concrete configuration with a nil logger and an
empty description: the error is the logger one, showing the nil check runs
before identity validation. -/
theorem New_nil_handles_checked_first_witness :
    New happyEnv cfgNilLogger = (Except.error loggerEmptyErr, []) := by
  have h := New_nil_handles_checked_first happyEnv cfgNilLogger (Or.inl rfl)
  simpa [cfgNilLogger, baseConfig] using h

/-- Inversion for a successful `New`: the returned service has a fresh boot
guard, and each of its two collector sets is the successful result of its
constructor, whose call appears in the trace. -/
theorem New_ok_inv (env : Env) (config : Config) (s : Service) (t : List ExtCall)
    (h : New env config = (Except.ok s, t)) :
    s.booted = false ∧
    (∃ oc : SetConfig, ExtCall.newCollectorSet oc ∈ t ∧
      env.collectorNewSet oc = Except.ok s.operatorCollector) ∧
    (∃ sc : StatusCollectorSetConfig, ExtCall.newStatusCollectorSet sc ∈ t ∧
      env.statusresourceNewCollectorSet sc = Except.ok s.statusResourceCollector) := by
  unfold New at h
  by_cases hl : config.logger.isNone
  · simp [hl] at h
  by_cases hf : config.flag.isNone
  · simp [hl, hf] at h
  cases hvp : config.viper with
  | none => simp [hl, hf, hvp] at h
  | some vs =>
    by_cases hd : config.description = ""
    · simp [hl, hf, hvp, hd] at h
    by_cases hg : config.gitCommit = ""
    · simp [hl, hf, hvp, hd, hg] at h
    by_cases hp : config.projectName = ""
    · simp [hl, hf, hvp, hd, hg, hp] at h
    by_cases hsrc : config.source = ""
    · simp [hl, hf, hvp, hd, hg, hp, hsrc] at h
    rcases hK : newK8sClient env vs with ⟨res, tk⟩
    cases res with
    | error e => simp [hl, hf, hvp, hd, hg, hp, hsrc, hK] at h
    | ok k =>
      rcases hC : newCollectors env config vs k with ⟨cres, tc⟩
      cases cres with
      | error e => simp [hl, hf, hvp, hd, hg, hp, hsrc, hK, hC] at h
      | ok s' =>
        obtain ⟨hb, hmo, ho, hms, hst, _⟩ := newCollectors_ok env config vs k s' tc hC
        simp [hl, hf, hvp, hd, hg, hp, hsrc, hK, hC, Prod.mk.injEq] at h
        obtain ⟨hs, ht⟩ := h
        subst hs
        subst ht
        exact ⟨hb,
          ⟨_, List.mem_append_right tk hmo, ho⟩,
          ⟨_, List.mem_append_right tk hms, hst⟩⟩

/-- C6: Collector assembly is all-or-nothing: a service handle is exposed
only when every collector-set construction succeeded — the handle's operator
collector set and status-resource collector set are exactly the successful
results of their constructors (whose calls are in the trace).  Equivalently,
if either construction fails, `New` cannot return a handle. -/
theorem New_collector_assembly_all_or_nothing (env : Env) (config : Config)
    (s : Service) (t : List ExtCall)
    (h : New env config = (Except.ok s, t)) :
    (∃ oc : SetConfig, ExtCall.newCollectorSet oc ∈ t ∧
      env.collectorNewSet oc = Except.ok s.operatorCollector) ∧
    (∃ sc : StatusCollectorSetConfig, ExtCall.newStatusCollectorSet sc ∈ t ∧
      env.statusresourceNewCollectorSet sc = Except.ok s.statusResourceCollector) :=
  (New_ok_inv env config s t h).2

/-- The service and trace `New` produces on the end-to-end example
configuration under all-accepting collaborators. -/
def baseService : Service :=
  ⟨⟨0⟩, false, ⟨0⟩, ⟨0⟩⟩

/-- The collaborator call trace of `New` on the end-to-end example. -/
def baseTrace : List ExtCall :=
  [ExtCall.buildRestConfig (buildK8sRestConfigParams inClusterViper),
    ExtCall.newClients ⟨"", some ⟨0⟩⟩,
    ExtCall.newCollectorSet ⟨"rg1", "westeurope", ⟨0⟩, "t1"⟩,
    ExtCall.newStatusCollectorSet ⟨⟨0⟩, ""⟩,
    ExtCall.newVersionService ⟨"d", "abc123", "collector", "src", "1.0"⟩]

/-- Witness for C6 on the end-to-end example configuration. -/
theorem New_collector_assembly_all_or_nothing_witness :
    (∃ oc : SetConfig, ExtCall.newCollectorSet oc ∈ baseTrace ∧
      happyEnv.collectorNewSet oc = Except.ok baseService.operatorCollector) ∧
    (∃ sc : StatusCollectorSetConfig, ExtCall.newStatusCollectorSet sc ∈ baseTrace ∧
      happyEnv.statusresourceNewCollectorSet sc =
        Except.ok baseService.statusResourceCollector) :=
  New_collector_assembly_all_or_nothing happyEnv baseConfig baseService baseTrace rfl

/-- A service whose boot guard has already fired stays unchanged and emits
no action however many further `Boot` calls it receives. -/
theorem bootSeq_booted (s : Service) (hs : s.booted = true) (cs : List Ctx) :
    bootSeq s cs = (s, []) := by
  induction cs with
  | nil => rfl
  | cons c cs ih => simp [bootSeq, Service.Boot, hs, ih]

/-- C5: `Boot` is idempotent: on any service constructed by `New`, any
sequence of N ≥ 1 `Boot` calls — concurrent callers serialise through the
`sync.Once` guard into such a sequence — makes the start sequence run
exactly once: the actions emitted across all calls are exactly the first
call's two `go` statements, and every later call leaves the service
unchanged. -/
theorem Boot_idempotent (env : Env) (config : Config) (s : Service) (t : List ExtCall)
    (h : New env config = (Except.ok s, t)) (c : Ctx) (cs : List Ctx) :
    bootSeq s (c :: cs) =
      ({ s with booted := true },
        [BootAction.startOperatorCollector c, BootAction.startStatusResourceCollector c]) := by
  have hb := (New_ok_inv env config s t h).1
  have h1 : s.Boot c = ({ s with booted := true },
      [BootAction.startOperatorCollector c, BootAction.startStatusResourceCollector c]) := by
    simp [Service.Boot, hb]
  have h2 : bootSeq { s with booted := true } cs = ({ s with booted := true }, []) :=
    bootSeq_booted _ (by simp) cs
  simp [bootSeq, h1, h2]

/-- Witness for C5: three `Boot` calls on the concretely constructed service
emit the first call's two start actions and nothing more. -/
theorem Boot_idempotent_witness :
    bootSeq baseService [⟨1⟩, ⟨2⟩, ⟨3⟩] =
      ({ baseService with booted := true },
        [BootAction.startOperatorCollector ⟨1⟩,
          BootAction.startStatusResourceCollector ⟨1⟩]) :=
  Boot_idempotent happyEnv baseConfig baseService baseTrace rfl ⟨1⟩ [⟨2⟩, ⟨3⟩]

/-- C8: on a service constructed by `New`, the first `Boot` call starts
exactly two collector sets — the operator collector set and the
status-resource collector set, in that order — passing the caller's context
to each; `Boot`'s codomain carries no error or other return value beyond the
updated one-shot state. -/
theorem Boot_starts_two_collector_sets (env : Env) (config : Config)
    (s : Service) (t : List ExtCall) (ctx : Ctx)
    (h : New env config = (Except.ok s, t)) :
    (s.Boot ctx).2 = [BootAction.startOperatorCollector ctx,
      BootAction.startStatusResourceCollector ctx] ∧
    (s.Boot ctx).2.length = 2 ∧
    (s.Boot ctx).1 = { s with booted := true } := by
  have hb := (New_ok_inv env config s t h).1
  simp [Service.Boot, hb]

/-- Witness for C8 on the concretely constructed service. -/
theorem Boot_starts_two_collector_sets_witness :
    (baseService.Boot ⟨7⟩).2 = [BootAction.startOperatorCollector ⟨7⟩,
      BootAction.startStatusResourceCollector ⟨7⟩] ∧
    (baseService.Boot ⟨7⟩).2.length = 2 ∧
    (baseService.Boot ⟨7⟩).1 = { baseService with booted := true } :=
  Boot_starts_two_collector_sets happyEnv baseConfig baseService baseTrace ⟨7⟩ rfl

/-- C9: collector-set isolation: `Boot` emits each run loop as its own
spawned unit and returns without evaluating either, so its result is the
same whatever the run loops later do; and when the spawned units are run,
a failure of the operator collector's loop leaves the status-resource
collector's outcome exactly what its own loop computes. -/
theorem Boot_collector_isolation (s : Service) (ctx : Ctx)
    (opRun statusRun : Ctx → Except Err Unit) (e : Err)
    (hb : s.booted = false) (hfail : opRun ctx = Except.error e) :
    runSpawned opRun statusRun (s.Boot ctx).2 = [Except.error e, statusRun ctx] ∧
    (s.Boot ctx).1 = { s with booted := true } := by
  simp [Service.Boot, hb, runSpawned, hfail]

/-- Witness for C9: a concrete failing operator run loop next to a healthy
status run loop. -/
theorem Boot_collector_isolation_witness :
    runSpawned (fun _ => Except.error ⟨ErrKind.collaborator, "boom"⟩)
        (fun _ => Except.ok ()) (baseService.Boot ⟨7⟩).2 =
      [Except.error ⟨ErrKind.collaborator, "boom"⟩, Except.ok ()] ∧
    (baseService.Boot ⟨7⟩).1 = { baseService with booted := true } :=
  Boot_collector_isolation baseService ⟨7⟩ _ _ _ rfl rfl

end AzureCollector
